import Mathlib

/-!
Shallow embedding of the metric polling and change-tracking core of the
RealtimeV2 Stream Deck plugin.

* `getActiveUsersWithChange` embeds the baseline/delta logic of
  `AnalyticsService.getActiveUsersWithChange` (src/services/analytics.ts):
  the method's shared mutable snapshot is passed and returned explicitly,
  and the network fetch result (`getActiveUsers`, `-1` on failure) is an
  input.  JS numbers are modelled as `Int` for metric values (they come
  from `parseInt`) and `ℚ` for percentage changes.
* `AU.step` embeds the event-driven behaviour of `ActiveUsersAction`
  (src/actions/active-users.ts) as a transition function on an explicit
  state: `onWillAppear`, `onWillDisappear`, a timer tick (which starts an
  `updateAllInstances` cycle up to its first `await`), and the completion
  of an in-flight fetch (which runs the rest of `updateAllInstances`).
* `MU` embeds the key-press toggle of `MonthlyUniqueUsersAction`
  (`onKeyDown` / `updateMetric`).
-/

namespace RealtimeV2

/-! ## Change tracker (`AnalyticsService.getActiveUsersWithChange`) -/

/-- The per-metric baseline: `activeUsersSnapshot` in `AnalyticsService`.
`timestamp = 0` marks "no baseline captured yet" (the constructor value). -/
structure Snapshot where
  value : Int
  timestamp : Int
deriving DecidableEq, Repr

/-- A fetch-and-compare result: `{ value, change }`.  `value = -1` is the
failure sentinel. -/
structure Reading where
  value : Int
  change : ℚ
deriving DecidableEq, Repr

/-- The fixed comparison window in milliseconds, `30 * 60 * 1000`. -/
def thirtyMinutesMs : Int := 30 * 60 * 1000

/-- The snapshot as initialised in the `AnalyticsService` field declaration. -/
def initialSnapshot : Snapshot := ⟨0, 0⟩

/-- The delta formula `previous === 0 ? 0 : ((current - previous) / previous) * 100`. -/
def pctChange (previous current : Int) : ℚ :=
  if previous = 0 then 0 else ((current : ℚ) - (previous : ℚ)) / (previous : ℚ) * 100

/-- The method `AnalyticsService.getActiveUsersWithChange`, with the snapshot state made
explicit.  `current` is the result of `getActiveUsers()` (`-1` on failure) and
`now` is `Date.now()`.  Returns the reading together with the updated
snapshot. -/
def getActiveUsersWithChange (snap : Snapshot) (current : Int) (now : Int) :
    Reading × Snapshot :=
  if current = -1 then (⟨-1, 0⟩, snap)
  else if thirtyMinutesMs ≤ now - snap.timestamp then
    if snap.timestamp = 0 then
      (⟨current, 0⟩, ⟨current, now⟩)
    else
      (⟨current, pctChange snap.value current⟩, ⟨current, now⟩)
  else
    (⟨current, pctChange snap.value current⟩, snap)

/-! ## `ActiveUsersAction` (src/actions/active-users.ts) -/

/-- The `ActiveUsersSettings` interface: per-observer rendering knobs, all
optional. -/
structure ActiveUsersSettings where
  customTitle : Option String := none
  titleSize : Option Int := none
  valueSize : Option Int := none
  percentageSize : Option Int := none
  titleY : Option Int := none
  valueY : Option Int := none
  percentageY : Option Int := none
  backgroundColor : Option String := none
  textColor : Option String := none
  positiveColor : Option String := none
  negativeColor : Option String := none
deriving DecidableEq, Repr

/-- JS `x || d` for an optional number field: `undefined` and `0` both fall
back to the default. -/
def jsOrInt (x : Option Int) (d : Int) : Int :=
  match x with
  | none => d
  | some v => if v = 0 then d else v

/-- JS `x || d` for an optional string field: `undefined` and `""` both fall
back to the default. -/
def jsOrStr (x : Option String) (d : String) : String :=
  match x with
  | none => d
  | some s => if s = "" then d else s

/-- The argument object handed to `renderTile` (fields that a call may omit
are `Option`). -/
structure TileSpec where
  title : String
  value : String
  percentageChange : Option ℚ := none
  backgroundColor : String
  textColor : String
  titleSize : Option Int := none
  valueSize : Option Int := none
  percentageSize : Option Int := none
  titleY : Option Int := none
  valueY : Option Int := none
  percentageY : Option Int := none
deriving DecidableEq, Repr

/-- The `renderTile` argument built in `ActiveUsersAction.updateMetric` from
an observer's settings and a (value, change) pair. -/
def activeUsersTile (stg : ActiveUsersSettings) (value : Int) (change : ℚ) :
    TileSpec :=
  { title := jsOrStr stg.customTitle "Active Users"
    value := toString value
    percentageChange := some change
    backgroundColor := jsOrStr stg.backgroundColor "#1a1a2e"
    textColor := jsOrStr stg.textColor "#ffffff"
    titleSize := some (jsOrInt stg.titleSize 14)
    valueSize := some (jsOrInt stg.valueSize 36)
    percentageSize := some (jsOrInt stg.percentageSize 16)
    titleY := some (jsOrInt stg.titleY 20)
    valueY := some (jsOrInt stg.valueY 72)
    percentageY := some (jsOrInt stg.percentageY 124) }

/-- Observable effects of the action: calls on the Stream Deck host and the
start of a network fetch. -/
inductive Output
  | setTitleOut (ctx : String) (title : String)
  | setImageTile (ctx : String) (tile : TileSpec)
  | setImageEmpty (ctx : String)
  | fetchStarted
deriving DecidableEq, Repr

/-- What an awaited `getActiveUsersWithChange()` call resolves to: a
`{value, change}` object, or a thrown error (caught by the action's
`try`/`catch`). -/
inductive FetchOutcome
  | success (value : Int) (change : ℚ)
  | thrown
deriving DecidableEq, Repr

/-- JS `Map.set` on an association list keyed by context id. -/
def mapSet {α : Type} (m : List (String × α)) (k : String) (v : α) :
    List (String × α) :=
  if m.any (fun p => p.1 = k) then
    m.map (fun p => if p.1 = k then (k, v) else p)
  else m ++ [(k, v)]

/-- JS `Map.delete` on an association list. -/
def mapDelete {α : Type} (m : List (String × α)) (k : String) :
    List (String × α) :=
  m.filter (fun p => p.1 ≠ k)

/-- JS `Map.get` on an association list. -/
def mapGet {α : Type} (m : List (String × α)) (k : String) : Option α :=
  (m.find? (fun p => p.1 = k)).map Prod.snd

/-- The call `activeContexts.set ctx handle`: the handle is the context itself, so
only key membership matters. -/
def ctxSet (l : List String) (k : String) : List String :=
  if k ∈ l then l else l ++ [k]

/-- The call `activeContexts.delete ctx`. -/
def ctxDelete (l : List String) (k : String) : List String :=
  l.filter (fun c => c ≠ k)

namespace AU

/-- The mutable fields of `ActiveUsersAction`, plus a fresh-timer counter
(`nextTimerId`, standing for `setInterval`'s handle allocation) and the
number of `updateAllInstances` cycles whose fetch has not yet resolved. -/
structure State where
  activeContexts : List String
  settingsCache : List (String × ActiveUsersSettings)
  pollInterval : Option Nat
  lastValue : Option Int
  lastChange : Option ℚ
  nextTimerId : Nat
  inFlightUpdates : Nat
deriving DecidableEq, Repr

/-- State of a freshly constructed `ActiveUsersAction`. -/
def initState : State :=
  { activeContexts := []
    settingsCache := []
    pollInterval := none
    lastValue := none
    lastChange := none
    nextTimerId := 0
    inFlightUpdates := 0 }

/-- Events delivered to the action.  `tick` is a `setInterval` callback
firing (it runs `updateAllInstances` up to the `await` on the fetch);
`fetchComplete` is one in-flight fetch resolving, after which the rest of
that `updateAllInstances` cycle runs. -/
inductive Event
  | willAppear (ctx : String) (settings : ActiveUsersSettings)
  | willDisappear (ctx : String)
  | tick
  | fetchComplete (outcome : FetchOutcome)
deriving DecidableEq, Repr

/-- Calls `setTitle("Error"); setImage("")` on every active context, the error
fan-out loop of `updateAllInstances`. -/
def errorOutputs (ctxs : List String) : List Output :=
  (ctxs.map (fun c => [Output.setTitleOut c "Error", Output.setImageEmpty c])).flatten

/-- The call `updateMetric(action, settings, value, change)` with value and change
both provided: no fetch happens, only host calls. -/
def updateMetricOutputs (ctx : String) (stg : ActiveUsersSettings)
    (value : Int) (change : ℚ) : List Output :=
  if value = -1 then [Output.setTitleOut ctx "Error", Output.setImageEmpty ctx]
  else [Output.setImageTile ctx (activeUsersTile stg value change),
        Output.setTitleOut ctx ""]

/-- One event step of `ActiveUsersAction`.  Events that cannot occur
(a tick with no armed interval, a fetch completion with nothing in flight)
are no-ops. -/
def step (s : State) : Event → State × List Output
  | .willAppear ctx stg =>
    let contexts := ctxSet s.activeContexts ctx
    let cache := mapSet s.settingsCache ctx stg
    let loading : List Output := [Output.setTitleOut ctx "Loading..."]
    if contexts.length = 1 then
      ({ s with activeContexts := contexts, settingsCache := cache,
                inFlightUpdates := s.inFlightUpdates + 1,
                pollInterval := some s.nextTimerId,
                nextTimerId := s.nextTimerId + 1 },
       loading ++ [Output.fetchStarted])
    else
      ({ s with activeContexts := contexts, settingsCache := cache },
       loading ++
         match s.lastValue, s.lastChange with
         | some v, some c => updateMetricOutputs ctx stg v c
         | _, _ => [])
  | .willDisappear ctx =>
    let contexts := ctxDelete s.activeContexts ctx
    let cache := mapDelete s.settingsCache ctx
    if contexts.length = 0 then
      ({ s with activeContexts := contexts, settingsCache := cache,
                pollInterval := none, lastValue := none, lastChange := none },
       [])
    else
      ({ s with activeContexts := contexts, settingsCache := cache }, [])
  | .tick =>
    match s.pollInterval with
    | some _ => ({ s with inFlightUpdates := s.inFlightUpdates + 1 },
                 [Output.fetchStarted])
    | none => (s, [])
  | .fetchComplete outcome =>
    if s.inFlightUpdates = 0 then (s, [])
    else
      let s0 := { s with inFlightUpdates := s.inFlightUpdates - 1 }
      match outcome with
      | .thrown => (s0, errorOutputs s.activeContexts)
      | .success v c =>
        if v = -1 then (s0, errorOutputs s.activeContexts)
        else
          ({ s0 with lastValue := some v, lastChange := some c },
           (s.activeContexts.map (fun ctx =>
             updateMetricOutputs ctx ((mapGet s.settingsCache ctx).getD {}) v c)).flatten)

/-- Run a list of events, returning the final state. -/
def runState (s : State) : List Event → State
  | [] => s
  | e :: es => runState (step s e).1 es

/-- Run a list of events, returning the final state and all outputs. -/
def runTrace (s : State) : List Event → State × List Output
  | [] => (s, [])
  | e :: es =>
    let r := step s e
    let rest := runTrace r.1 es
    (rest.1, r.2 ++ rest.2)

end AU

/-! ## `MonthlyUniqueUsersAction` key-press toggle (dual-window metric) -/

/-- The `MonthlyUniqueUsersSettings` interface. -/
structure MUSettings where
  customTitle : Option String := none
  titleSize : Option Int := none
  valueSize : Option Int := none
  percentageSize : Option Int := none
  titleY : Option Int := none
  valueY : Option Int := none
  percentageY : Option Int := none
  backgroundColor : Option String := none
  textColor : Option String := none
  positiveColor : Option String := none
  negativeColor : Option String := none
  showingPrevious : Option Bool := none
deriving DecidableEq, Repr

/-- The helper `formatNumber` from canvas-renderer.ts, on integer inputs.  `toFixed(1)`
on `num / 1000` (or `num / 1000000`) keeps one decimal digit; the rounding
is modelled as round-half-up on the exact quotient (JS rounds the nearest
double, which can differ on exact-tie inputs). -/
def formatNumber (num : Int) : String :=
  if 1000000 ≤ num then
    let tenths := (num * 10 + 500000) / 1000000
    toString (tenths / 10) ++ "." ++ toString (tenths % 10) ++ "M"
  else if 1000 ≤ num then
    let tenths := (num * 10 + 500) / 1000
    toString (tenths / 10) ++ "." ++ toString (tenths % 10) ++ "K"
  else toString num

namespace MU

/-- The cache fields of `MonthlyUniqueUsersAction` read by `onKeyDown` and
`updateMetric`, plus the per-context settings cache. -/
structure State where
  settingsCache : List (String × MUSettings)
  lastValue : Option Int := none
  lastChange : Option ℚ := none
  lastPreviousValue : Option Int := none
  lastPreviousChange : Option ℚ := none
deriving DecidableEq, Repr

/-- The `renderTile` argument built by `MonthlyUniqueUsersAction.updateMetric`
for a non-sentinel value: title suffixed with `(Prev)` when showing the
previous period. -/
def muTile (stg : MUSettings) (showingPrevious : Bool) (value : Int)
    (change : ℚ) : TileSpec :=
  let baseTitle := jsOrStr stg.customTitle "Monthly Users"
  { title := if showingPrevious then baseTitle ++ " (Prev)" else baseTitle
    value := formatNumber value
    percentageChange := some change
    backgroundColor := jsOrStr stg.backgroundColor "#16213e"
    textColor := jsOrStr stg.textColor "#ffffff"
    titleSize := some (jsOrInt stg.titleSize 14)
    valueSize := some (jsOrInt stg.valueSize 36)
    percentageSize := some (jsOrInt stg.percentageSize 16)
    titleY := some (jsOrInt stg.titleY 20)
    valueY := some (jsOrInt stg.valueY 72)
    percentageY := some (jsOrInt stg.percentageY 124) }

/-- The error tile rendered by `updateMetric` when the selected value is the
sentinel. -/
def muErrorTile (stg : MUSettings) : TileSpec :=
  { title := jsOrStr stg.customTitle "Monthly Users"
    value := "Error"
    backgroundColor := jsOrStr stg.backgroundColor "#16213e"
    textColor := jsOrStr stg.textColor "#ffffff" }

/-- The tile `updateMetric` renders from a selected (value, change) pair. -/
def muRender (stg : MUSettings) (showingPrevious : Bool) (value : Int)
    (change : ℚ) : TileSpec :=
  if value = -1 then muErrorTile stg else muTile stg showingPrevious value change

/-- The method `MonthlyUniqueUsersAction.updateMetric`: selects the period from
`settings.showingPrevious || false`, uses the corresponding cached pair when
present and otherwise fetches (`fetchPrev`/`fetchCurr` supply what such a
fetch would resolve to).  Returns how many fetch calls were made and the
rendered tile. -/
def updateMetric (s : State) (stg : MUSettings)
    (fetchPrev fetchCurr : Int × ℚ) : Nat × TileSpec :=
  let showingPrevious := stg.showingPrevious.getD false
  let sel : Nat × Int × ℚ :=
    if showingPrevious then
      match s.lastPreviousValue, s.lastPreviousChange with
      | some v, some c => (0, v, c)
      | _, _ => (1, fetchPrev)
    else
      match s.lastValue, s.lastChange with
      | some v, some c => (0, v, c)
      | _, _ => (1, fetchCurr)
  (sel.1, muRender stg showingPrevious sel.2.1 sel.2.2)

/-- The method `MonthlyUniqueUsersAction.onKeyDown`: flip `showingPrevious` in the
context's settings, persist them, and re-render via `updateMetric`.  Returns
the new state, the updated settings object, the number of fetch calls, and
the rendered tile. -/
def onKeyDown (s : State) (ctx : String) (fetchPrev fetchCurr : Int × ℚ) :
    State × MUSettings × Nat × TileSpec :=
  let currentSettings := (mapGet s.settingsCache ctx).getD {}
  let showingPrevious := !(currentSettings.showingPrevious.getD false)
  let updatedSettings := { currentSettings with showingPrevious := some showingPrevious }
  let s' := { s with settingsCache := mapSet s.settingsCache ctx updatedSettings }
  let r := updateMetric s' updatedSettings fetchPrev fetchCurr
  (s', updatedSettings, r.1, r.2)

end MU

/-! ## Theorems about the change tracker -/

/-- Within the 30-minute window a successful observation leaves the snapshot
untouched and compares against the stored baseline. -/
lemma observe_within_window (snap : Snapshot) (c now : Int) (hc : c ≠ -1)
    (hw : now - snap.timestamp < thirtyMinutesMs) :
    getActiveUsersWithChange snap c now =
      (⟨c, pctChange snap.value c⟩, snap) := by
  unfold getActiveUsersWithChange
  rw [if_neg hc, if_neg (not_le.mpr hw)]

/-- At or past the window boundary a successful observation replaces the
snapshot with the fresh value and the observation time. -/
lemma observe_rollover (snap : Snapshot) (c now : Int) (hc : c ≠ -1)
    (ht : snap.timestamp ≠ 0) (hw : thirtyMinutesMs ≤ now - snap.timestamp) :
    getActiveUsersWithChange snap c now =
      (⟨c, pctChange snap.value c⟩, ⟨c, now⟩) := by
  unfold getActiveUsersWithChange
  rw [if_neg hc, if_pos hw, if_neg ht]

/-- C2: on a non-sentinel fresh value, `getActiveUsersWithChange` with no
stored baseline (snapshot timestamp 0, as on construction) stores
`{value: fresh, capturedAt: now}` and returns change 0; with a stored
baseline of value `p` it returns `change = (p == 0 ? 0 : ((fresh - p) / p) * 100)`;
in particular baseline 100 with fresh value 115 yields +15% and baseline 0
with fresh value 50 yields 0. -/
theorem observe_first_and_delta :
    (∀ (snap : Snapshot) (current now : Int), current ≠ -1 →
      snap.timestamp = 0 → thirtyMinutesMs ≤ now →
      getActiveUsersWithChange snap current now =
        (⟨current, 0⟩, ⟨current, now⟩)) ∧
    (∀ (snap : Snapshot) (current now : Int), current ≠ -1 →
      snap.timestamp ≠ 0 →
      (getActiveUsersWithChange snap current now).1 =
        ⟨current, pctChange snap.value current⟩) ∧
    pctChange 100 115 = 15 ∧ pctChange 0 50 = 0 := by
  refine ⟨?_, ?_, by norm_num [pctChange], by norm_num [pctChange]⟩
  · intro snap current now hc ht hn
    unfold getActiveUsersWithChange
    rw [if_neg hc, if_pos (by rw [ht]; simpa using hn), if_pos ht]
  · intro snap current now hc ht
    rcases lt_or_le (now - snap.timestamp) thirtyMinutesMs with hw | hw
    · rw [observe_within_window snap current now hc hw]
    · rw [observe_rollover snap current now hc ht hw]

/-- Witness for C2 at concrete inputs: the first observation of 50 at
`now = 1800000` stores the baseline and reports 0%, and a baseline of 100
against fresh value 115 reports +15%. -/
theorem observe_first_and_delta_witness :
    getActiveUsersWithChange ⟨0, 0⟩ 50 1800000 = (⟨50, 0⟩, ⟨50, 1800000⟩) ∧
    (getActiveUsersWithChange ⟨100, 7⟩ 115 8).1 = ⟨115, 15⟩ := by
  constructor
  · exact observe_first_and_delta.1 ⟨0, 0⟩ 50 1800000 (by decide) rfl (by decide)
  · have h := observe_first_and_delta.2.1 ⟨100, 7⟩ 115 8 (by decide) (by decide)
    rw [h]
    norm_num [pctChange]

/-- C3: a cycle whose fetch failed (sentinel `-1`) returns `{value: -1,
change: 0}` and leaves the stored snapshot — value and timestamp —
unchanged, whatever its state. -/
theorem observe_failure_preserves_snapshot (snap : Snapshot) (now : Int) :
    getActiveUsersWithChange snap (-1) now = (⟨-1, 0⟩, snap) := by
  unfold getActiveUsersWithChange
  rw [if_pos rfl]

/-- C6: in the fixed 30-minute window, two successful observations strictly
inside the window both compare against the same stored baseline and leave it
unchanged; the first successful observation at or after the boundary replaces
the baseline with the fresh value, capturing that observation's time. -/
theorem fixed_window_rollover :
    (∀ (snap : Snapshot) (c1 now1 c2 now2 : Int), c1 ≠ -1 → c2 ≠ -1 →
      now1 - snap.timestamp < thirtyMinutesMs →
      now2 - snap.timestamp < thirtyMinutesMs →
      (getActiveUsersWithChange snap c1 now1).1.change = pctChange snap.value c1 ∧
      (getActiveUsersWithChange snap c1 now1).2 = snap ∧
      (getActiveUsersWithChange (getActiveUsersWithChange snap c1 now1).2 c2 now2).1.change
        = pctChange snap.value c2 ∧
      (getActiveUsersWithChange (getActiveUsersWithChange snap c1 now1).2 c2 now2).2 = snap) ∧
    (∀ (snap : Snapshot) (c now : Int), c ≠ -1 → snap.timestamp ≠ 0 →
      thirtyMinutesMs ≤ now - snap.timestamp →
      (getActiveUsersWithChange snap c now).2 = ⟨c, now⟩) := by
  constructor
  · intro snap c1 now1 c2 now2 hc1 hc2 hw1 hw2
    rw [observe_within_window snap c1 now1 hc1 hw1]
    rw [observe_within_window snap c2 now2 hc2 hw2]
    exact ⟨rfl, rfl, rfl, rfl⟩
  · intro snap c now hc ht hw
    rw [observe_rollover snap c now hc ht hw]

/-- Witness for C6: with a baseline captured at time 1000, observations at
times 2000 and 3000 both compare against baseline value 100 without moving
it, and an observation at time `1000 + 1800000` rolls it forward. -/
theorem fixed_window_rollover_witness :
    (getActiveUsersWithChange ⟨100, 1000⟩ 110 2000).2 = ⟨100, 1000⟩ ∧
    (getActiveUsersWithChange (getActiveUsersWithChange ⟨100, 1000⟩ 110 2000).2 120 3000).2
      = ⟨100, 1000⟩ ∧
    (getActiveUsersWithChange ⟨100, 1000⟩ 130 1801000).2 = ⟨130, 1801000⟩ := by
  refine ⟨?_, ?_, ?_⟩
  · exact (fixed_window_rollover.1 ⟨100, 1000⟩ 110 2000 120 3000 (by decide) (by decide)
      (by decide) (by decide)).2.1
  · exact (fixed_window_rollover.1 ⟨100, 1000⟩ 110 2000 120 3000 (by decide) (by decide)
      (by decide) (by decide)).2.2.2
  · exact fixed_window_rollover.2 ⟨100, 1000⟩ 130 1801000 (by decide) (by decide) (by decide)

/-! ## Theorems about `ActiveUsersAction` -/

namespace AU

/-- The interval handle is set iff some context is registered. -/
def timerInvariant (s : State) : Prop :=
  s.pollInterval ≠ none ↔ s.activeContexts ≠ []

/-- Events the host can actually deliver in state `s`: a context appears only
while not already visible. -/
def evOk (s : State) : Event → Prop
  | .willAppear ctx _ => ctx ∉ s.activeContexts
  | _ => True

/-- The step allocates a fresh interval handle (`setInterval` is called). -/
def armsNewTimer (s : State) (e : Event) : Prop :=
  (step s e).1.nextTimerId = s.nextTimerId + 1

/-- The step clears a live interval handle (`clearInterval` is called). -/
def cancelsTimer (s : State) (e : Event) : Prop :=
  s.pollInterval ≠ none ∧ (step s e).1.pollInterval = none

/-- The event is a subscription that takes the registry from empty to
size 1. -/
def becomesOne (s : State) (e : Event) : Prop :=
  (∃ ctx stg, e = .willAppear ctx stg) ∧ s.activeContexts = []

/-- The event is an unsubscription that takes the registry from non-empty to
empty. -/
def becomesZero (s : State) (e : Event) : Prop :=
  (∃ ctx, e = .willDisappear ctx ∧ ctxDelete s.activeContexts ctx = []) ∧
    s.activeContexts ≠ []

lemma ctxSet_ne_nil (l : List String) (k : String) : ctxSet l k ≠ [] := by
  unfold ctxSet
  split
  · intro h
    simp_all
  · simp

lemma ctxSet_nil_length (k : String) : (ctxSet [] k).length = 1 := by
  simp [ctxSet]

lemma ctxDelete_nil (k : String) : ctxDelete [] k = [] := rfl

lemma timerInvariant_step (s : State) (e : Event)
    (h : timerInvariant s) : timerInvariant (step s e).1 := by
  unfold timerInvariant at h ⊢
  cases e with
  | willAppear ctx stg =>
    by_cases hl : (ctxSet s.activeContexts ctx).length = 1
    · simp only [step, if_pos hl]
      simpa using ctxSet_ne_nil s.activeContexts ctx
    · simp only [step, if_neg hl]
      have hne : s.activeContexts ≠ [] := by
        intro hnil
        rw [hnil] at hl
        exact hl (ctxSet_nil_length ctx)
      constructor
      · intro _
        exact ctxSet_ne_nil s.activeContexts ctx
      · intro _
        exact h.mpr hne
  | willDisappear ctx =>
    by_cases hl : (ctxDelete s.activeContexts ctx).length = 0
    · simp only [step, if_pos hl]
      simp [List.length_eq_zero.mp hl]
    · simp only [step, if_neg hl]
      have hne : s.activeContexts ≠ [] := by
        intro hnil
        rw [hnil, ctxDelete_nil] at hl
        exact hl rfl
      constructor
      · intro _
        intro hnil
        rw [hnil] at hl
        exact hl rfl
      · intro _
        exact h.mpr hne
  | tick =>
    cases hp : s.pollInterval with
    | none => simpa [step, hp] using h
    | some k => simpa [step, hp] using h
  | fetchComplete outcome =>
    by_cases hz : s.inFlightUpdates = 0
    · simpa [step, hz] using h
    · cases outcome with
      | thrown => simpa [step, hz] using h
      | success v c =>
        by_cases hv : v = -1
        · simpa [step, hz, hv] using h
        · simpa [step, hz, hv] using h

lemma timerInvariant_runState (t : List Event) :
    ∀ s : State, timerInvariant s → timerInvariant (runState s t) := by
  induction t with
  | nil => intro s h; exact h
  | cons e es ih =>
    intro s h
    exact ih (step s e).1 (timerInvariant_step s e h)

lemma timerInvariant_init : timerInvariant initState := by
  unfold timerInvariant initState
  simp

lemma ctxSet_not_mem {l : List String} {k : String} (h : k ∉ l) :
    ctxSet l k = l ++ [k] := if_neg h

lemma arms_iff (s : State) (e : Event) (hok : evOk s e) :
    armsNewTimer s e ↔ becomesOne s e := by
  cases e with
  | willAppear ctx stg =>
    have hset : ctxSet s.activeContexts ctx = s.activeContexts ++ [ctx] :=
      ctxSet_not_mem hok
    by_cases hnil : s.activeContexts = []
    · have h1 : (ctxSet s.activeContexts ctx).length = 1 := by
        rw [hnil, ctxSet_nil_length]
      unfold armsNewTimer becomesOne
      simp only [step, if_pos h1]
      constructor
      · intro _
        exact ⟨⟨ctx, stg, rfl⟩, hnil⟩
      · intro _
        trivial
    · have h1 : (ctxSet s.activeContexts ctx).length ≠ 1 := by
        rw [hset]
        simp only [List.length_append, List.length_singleton]
        intro h
        exact hnil (List.length_eq_zero.mp (Nat.succ_injective h))
      unfold armsNewTimer becomesOne
      simp only [step, if_neg h1]
      constructor
      · intro h
        exact absurd h (Nat.ne_of_lt (Nat.lt_succ_self _))
      · intro h
        exact absurd h.2 hnil
  | willDisappear ctx =>
    unfold armsNewTimer becomesOne
    constructor
    · intro h
      by_cases hl : (ctxDelete s.activeContexts ctx).length = 0 <;>
        simp only [step, if_pos, if_neg, hl] at h <;>
        simp at h
    · rintro ⟨⟨c, t, hct⟩, -⟩
      exact Event.noConfusion hct
  | tick =>
    unfold armsNewTimer becomesOne
    constructor
    · intro h
      cases hp : s.pollInterval <;> simp [step, hp] at h
    · rintro ⟨⟨c, t, hct⟩, -⟩
      exact Event.noConfusion hct
  | fetchComplete outcome =>
    unfold armsNewTimer becomesOne
    constructor
    · intro h
      by_cases hz : s.inFlightUpdates = 0
      · simp [step, hz] at h
      · cases outcome with
        | thrown => simp [step, hz] at h
        | success v c =>
          by_cases hv : v = -1 <;> simp [step, hz, hv] at h
    · rintro ⟨⟨c, t, hct⟩, -⟩
      exact Event.noConfusion hct

lemma cancels_iff (s : State) (e : Event) (hinv : timerInvariant s)
    (hok : evOk s e) : cancelsTimer s e ↔ becomesZero s e := by
  cases e with
  | willAppear ctx stg =>
    unfold cancelsTimer becomesZero
    constructor
    · rintro ⟨hsome, hnone⟩
      by_cases h1 : (ctxSet s.activeContexts ctx).length = 1 <;>
        simp only [step, if_pos, if_neg, h1] at hnone
      · exact absurd hnone (Option.some_ne_none _)
      · exact absurd hnone hsome
    · rintro ⟨⟨c, hct, -⟩, -⟩
      exact Event.noConfusion hct
  | willDisappear ctx =>
    unfold cancelsTimer becomesZero
    by_cases hl : (ctxDelete s.activeContexts ctx).length = 0
    · have hdel : ctxDelete s.activeContexts ctx = [] := List.length_eq_zero.mp hl
      simp only [step, if_pos hl]
      constructor
      · rintro ⟨hsome, -⟩
        exact ⟨⟨ctx, rfl, hdel⟩, hinv.mp hsome⟩
      · rintro ⟨-, hne⟩
        exact ⟨hinv.mpr hne, trivial⟩
    · have hne : s.activeContexts ≠ [] := by
        intro hnil
        rw [hnil, ctxDelete_nil] at hl
        exact hl rfl
      simp only [step, if_neg hl]
      constructor
      · rintro ⟨hsome, hnone⟩
        exact absurd hnone hsome
      · rintro ⟨⟨c, hct, hcdel⟩, -⟩
        obtain rfl : c = ctx := by
          cases hct
          rfl
        exact absurd hcdel (fun h => hl (by rw [h]; rfl))
  | tick =>
    unfold cancelsTimer becomesZero
    constructor
    · rintro ⟨hsome, hnone⟩
      cases hp : s.pollInterval with
      | none => exact absurd hp hsome
      | some k =>
        simp only [step, hp] at hnone
        exact absurd hnone (Option.some_ne_none _)
    · rintro ⟨⟨c, hct, -⟩, -⟩
      exact Event.noConfusion hct
  | fetchComplete outcome =>
    unfold cancelsTimer becomesZero
    constructor
    · rintro ⟨hsome, hnone⟩
      by_cases hz : s.inFlightUpdates = 0
      · simp only [step, if_pos hz] at hnone
        exact absurd hnone hsome
      · cases outcome with
        | thrown =>
          simp only [step, if_neg hz] at hnone
          exact absurd hnone hsome
        | success v c =>
          by_cases hv : v = -1 <;>
            simp only [step, if_neg hz, if_pos, if_neg, hv] at hnone <;>
            exact absurd hnone hsome
    · rintro ⟨⟨c, hct, -⟩, -⟩
      exact Event.noConfusion hct

/-- C1: after any sequence of appear/disappear/tick/completion events from
the initial state, the interval handle is non-null iff the set of active
contexts is non-empty; moreover, for any event the host can deliver there, a
new interval is armed exactly when the event is a subscription taking the
registry size to 1, and a live interval is cleared exactly when the event is
an unsubscription taking the registry size to 0. -/
theorem timer_iff_observers (t : List Event) :
    timerInvariant (runState initState t) ∧
    ∀ e, evOk (runState initState t) e →
      (armsNewTimer (runState initState t) e ↔ becomesOne (runState initState t) e) ∧
      (cancelsTimer (runState initState t) e ↔ becomesZero (runState initState t) e) := by
  have hinv := timerInvariant_runState t initState timerInvariant_init
  exact ⟨hinv, fun e hok => ⟨arms_iff _ e hok, cancels_iff _ e hinv hok⟩⟩

/-- Witness for C1: after one subscription the timer is armed, and the
matching unsubscription cancels it. -/
theorem timer_iff_observers_witness :
    (runState initState [Event.willAppear "a" {}]).pollInterval ≠ none ∧
    cancelsTimer (runState initState [Event.willAppear "a" {}])
      (Event.willDisappear "a") := by
  have h := timer_iff_observers [Event.willAppear "a" {}]
  constructor
  · exact h.1.mpr (by decide)
  · exact ((h.2 (Event.willDisappear "a") trivial).2).mpr
      ⟨⟨"a", rfl, by decide⟩, by decide⟩

/-- C4 fails on the code: `startPolling`'s `setInterval` callback invokes
`updateAllInstances` with no in-flight guard, so after the immediate first
update a tick that fires before that fetch resolves leaves two cycles in
flight at once. -/
theorem tick_not_dropped_counterexample :
    (runState initState [Event.willAppear "a" {}, Event.tick]).inFlightUpdates = 2 ∧
    ¬ (runState initState [Event.willAppear "a" {}, Event.tick]).inFlightUpdates ≤ 1 := by
  decide

/-- C4 amended: a tick that fires while the interval is armed always starts
another fetch cycle — even when a previous cycle's fetch has not yet
returned — so ticks are never dropped and the number of concurrently
in-flight fetches grows by one per tick. -/
theorem tick_always_starts_fetch (s : State) (h : s.pollInterval ≠ none)
    (hin : 1 ≤ s.inFlightUpdates) :
    (step s Event.tick).1.inFlightUpdates = s.inFlightUpdates + 1 ∧
    (step s Event.tick).2 = [Output.fetchStarted] := by
  cases hp : s.pollInterval with
  | none => exact absurd hp h
  | some k => constructor <;> simp [step, hp]

/-- Witness for the amended C4: a tick during the in-flight immediate update
brings the in-flight count to 2. -/
theorem tick_always_starts_fetch_witness :
    (step (runState initState [Event.willAppear "a" {}]) Event.tick).1.inFlightUpdates = 2 := by
  have h := tick_always_starts_fetch (runState initState [Event.willAppear "a" {}])
    (by decide) (by decide)
  exact h.1.trans (by decide)

/-- C5 fails on the code: subscribe, unsubscribe (cache cleared, timer
cancelled), then the still-in-flight fetch resolves successfully —
`updateAllInstances` unconditionally assigns `lastValue`/`lastChange`, so the
cached Reading is re-populated while no observers are registered. -/
theorem cache_cleared_counterexample :
    (runState initState [Event.willAppear "a" {}, Event.willDisappear "a",
        Event.fetchComplete (FetchOutcome.success 5 0)]).activeContexts = [] ∧
    (runState initState [Event.willAppear "a" {}, Event.willDisappear "a",
        Event.fetchComplete (FetchOutcome.success 5 0)]).lastValue = some 5 ∧
    (runState initState [Event.willAppear "a" {}, Event.willDisappear "a",
        Event.fetchComplete (FetchOutcome.success 5 0)]).lastChange = some 0 := by
  decide

/-- C5 amended: unsubscribing the last observer clears the cached Reading and
cancels the timer, and a fetch completing afterwards publishes to no
observer; but on success that completion re-populates the cached
`lastValue`/`lastChange` even though the observer set is empty. -/
theorem last_unsubscribe_clears_completion_repopulates :
    (∀ (s : State) (ctx : String), ctxDelete s.activeContexts ctx = [] →
      (step s (Event.willDisappear ctx)).1.pollInterval = none ∧
      (step s (Event.willDisappear ctx)).1.lastValue = none ∧
      (step s (Event.willDisappear ctx)).1.lastChange = none) ∧
    (∀ (s : State) (v : Int) (c : ℚ), s.activeContexts = [] →
      1 ≤ s.inFlightUpdates → v ≠ -1 →
      (step s (Event.fetchComplete (FetchOutcome.success v c))).2 = [] ∧
      (step s (Event.fetchComplete (FetchOutcome.success v c))).1.lastValue = some v ∧
      (step s (Event.fetchComplete (FetchOutcome.success v c))).1.lastChange = some c) := by
  constructor
  · intro s ctx h
    have hl : (ctxDelete s.activeContexts ctx).length = 0 := by rw [h]; rfl
    refine ⟨?_, ?_, ?_⟩ <;> simp [step, hl]
  · intro s v c hctx hin hv
    have hz : s.inFlightUpdates ≠ 0 := Nat.pos_iff_ne_zero.mp hin
    refine ⟨?_, ?_, ?_⟩ <;> simp [step, hz, hv, hctx]

/-- Witness for the amended C5 at the concrete failing trace. -/
theorem last_unsubscribe_clears_completion_repopulates_witness :
    (step (runState initState [Event.willAppear "a" {}]) (Event.willDisappear "a")).1.lastValue
      = none ∧
    (step (runState initState [Event.willAppear "a" {}, Event.willDisappear "a"])
        (Event.fetchComplete (FetchOutcome.success 5 0))).2 = [] ∧
    (step (runState initState [Event.willAppear "a" {}, Event.willDisappear "a"])
        (Event.fetchComplete (FetchOutcome.success 5 0))).1.lastValue = some 5 := by
  refine ⟨?_, ?_, ?_⟩
  · exact (last_unsubscribe_clears_completion_repopulates.1
      (runState initState [Event.willAppear "a" {}]) "a" (by decide)).2.1
  · exact (last_unsubscribe_clears_completion_repopulates.2
      (runState initState [Event.willAppear "a" {}, Event.willDisappear "a"])
      5 0 (by decide) (by decide) (by decide)).1
  · exact (last_unsubscribe_clears_completion_repopulates.2
      (runState initState [Event.willAppear "a" {}, Event.willDisappear "a"])
      5 0 (by decide) (by decide) (by decide)).2.1

lemma ctxSet_length_ne_one {l : List String} {k : String} (hmem : k ∉ l)
    (hne : l ≠ []) : (ctxSet l k).length ≠ 1 := by
  rw [ctxSet_not_mem hmem]
  simp only [List.length_append, List.length_singleton]
  intro h
  exact hne (List.length_eq_zero.mp (Nat.succ_injective h))

/-- Behaviour of `onWillAppear` for a new context while others are visible: no fetch, no
state change beyond the registries, and an immediate push of the cached
Reading rendered with the new context's own settings. -/
lemma willAppear_pushes_cache (s : State) (ctx : String)
    (stg : ActiveUsersSettings) (v : Int) (c : ℚ)
    (hne : s.activeContexts ≠ []) (hnew : ctx ∉ s.activeContexts)
    (hv : s.lastValue = some v) (hc : s.lastChange = some c) (hv1 : v ≠ -1) :
    (step s (Event.willAppear ctx stg)).1.pollInterval = s.pollInterval ∧
    (step s (Event.willAppear ctx stg)).1.lastValue = s.lastValue ∧
    (step s (Event.willAppear ctx stg)).1.lastChange = s.lastChange ∧
    (step s (Event.willAppear ctx stg)).1.inFlightUpdates = s.inFlightUpdates ∧
    (step s (Event.willAppear ctx stg)).2 =
      [Output.setTitleOut ctx "Loading...",
       Output.setImageTile ctx (activeUsersTile stg v c),
       Output.setTitleOut ctx ""] ∧
    Output.fetchStarted ∉ (step s (Event.willAppear ctx stg)).2 := by
  have h1 := ctxSet_length_ne_one hnew hne
  refine ⟨?_, ?_, ?_, ?_, ?_, ?_⟩ <;>
    simp [step, h1, hv, hc, updateMetricOutputs, hv1]

/-- C7: subscribing a context while at least one other is already registered
performs no fetch, leaves the timer, the cached Reading and the in-flight
count unchanged, and immediately pushes the cached Reading rendered with the
new context's own settings. -/
theorem second_subscriber_no_fetch (s : State) (ctx : String)
    (stg : ActiveUsersSettings) (v : Int) (c : ℚ)
    (hne : s.activeContexts ≠ []) (hnew : ctx ∉ s.activeContexts)
    (hv : s.lastValue = some v) (hc : s.lastChange = some c) (hv1 : v ≠ -1) :
    (step s (Event.willAppear ctx stg)).1.pollInterval = s.pollInterval ∧
    (step s (Event.willAppear ctx stg)).1.lastValue = s.lastValue ∧
    (step s (Event.willAppear ctx stg)).1.lastChange = s.lastChange ∧
    (step s (Event.willAppear ctx stg)).1.inFlightUpdates = s.inFlightUpdates ∧
    (step s (Event.willAppear ctx stg)).2 =
      [Output.setTitleOut ctx "Loading...",
       Output.setImageTile ctx (activeUsersTile stg v c),
       Output.setTitleOut ctx ""] ∧
    Output.fetchStarted ∉ (step s (Event.willAppear ctx stg)).2 :=
  willAppear_pushes_cache s ctx stg v c hne hnew hv hc hv1

/-- Witness for C7: a second subscriber "b" after a successful cycle gets the
cached reading (7, +15%) rendered with default settings, and no fetch
starts. -/
theorem second_subscriber_no_fetch_witness :
    (step (runState initState
        [Event.willAppear "a" {}, Event.fetchComplete (FetchOutcome.success 7 15)])
      (Event.willAppear "b" {})).2 =
      [Output.setTitleOut "b" "Loading...",
       Output.setImageTile "b" (activeUsersTile {} 7 15),
       Output.setTitleOut "b" ""] := by
  exact (second_subscriber_no_fetch
    (runState initState
      [Event.willAppear "a" {}, Event.fetchComplete (FetchOutcome.success 7 15)])
    "b" {} 7 15 (by decide) (by decide) (by decide) (by decide) (by decide)).2.2.2.2.1

/-- One poll cycle per fetch outcome: the interval callback fires, then that
cycle's fetch resolves. -/
def cycles : List FetchOutcome → List Event
  | [] => []
  | o :: os => Event.tick :: Event.fetchComplete o :: cycles os

/-- Failed fetch: the sentinel value `-1` or a thrown error. -/
def isFailure : FetchOutcome → Prop
  | .success v _ => v = -1
  | .thrown => True

lemma runState_eq_runTrace_fst (t : List Event) :
    ∀ s : State, runState s t = (runTrace s t).1 := by
  induction t with
  | nil => intro s; rfl
  | cons e es ih =>
    intro s
    simp only [runState, runTrace]
    exact ih (step s e).1

/-- One failing cycle from an armed state produces a fetch start followed by
the error fan-out, and returns the state unchanged. -/
lemma fail_cycle (s : State) (o : FetchOutcome) (h : s.pollInterval ≠ none)
    (hf : isFailure o) :
    runTrace s [Event.tick, Event.fetchComplete o] =
      (s, Output.fetchStarted :: errorOutputs s.activeContexts) := by
  cases hp : s.pollInterval with
  | none => exact absurd hp h
  | some k =>
    cases o with
    | thrown =>
      simp [runTrace, step, hp]
      rw [← hp]
    | success v c =>
      have hv : v = -1 := hf
      subst hv
      simp [runTrace, step, hp]
      rw [← hp]

lemma runTrace_append (t1 t2 : List Event) : ∀ s : State,
    runTrace s (t1 ++ t2) =
      ((runTrace (runTrace s t1).1 t2).1,
       (runTrace s t1).2 ++ (runTrace (runTrace s t1).1 t2).2) := by
  induction t1 with
  | nil => intro s; simp [runTrace]
  | cons e es ih =>
    intro s
    simp only [List.cons_append, runTrace, List.append_eq]
    rw [ih (step s e).1]
    simp

/-- C8: while the interval is armed, any number of consecutive failing
cycles — sentinel results or thrown errors, in any mix — leaves the whole
state (timer, registries, cache) unchanged, and each cycle starts its fetch
unconditionally and then publishes the explicit error display
(`setTitle("Error"); setImage("")`) to every registered context. -/
theorem failures_keep_polling (s : State) (outs : List FetchOutcome)
    (h : s.pollInterval ≠ none) (hf : ∀ o ∈ outs, isFailure o) :
    runState s (cycles outs) = s ∧
    (runTrace s (cycles outs)).2 =
      (outs.map (fun _ => Output.fetchStarted :: errorOutputs s.activeContexts)).flatten ∧
    ∀ ctx ∈ s.activeContexts,
      Output.setTitleOut ctx "Error" ∈ errorOutputs s.activeContexts ∧
      Output.setImageEmpty ctx ∈ errorOutputs s.activeContexts := by
  have key : ∀ outs : List FetchOutcome, (∀ o ∈ outs, isFailure o) →
      runTrace s (cycles outs) =
        (s, (outs.map (fun _ =>
          Output.fetchStarted :: errorOutputs s.activeContexts)).flatten) := by
    intro outs hf
    induction outs with
    | nil => simp [cycles, runTrace]
    | cons o os ih =>
      have hco : cycles (o :: os) = [Event.tick, Event.fetchComplete o] ++ cycles os := rfl
      rw [hco, runTrace_append, fail_cycle s o h (hf o (List.mem_cons_self o os)),
        ih (fun x hx => hf x (List.mem_cons_of_mem o hx))]
      simp
  refine ⟨?_, ?_, ?_⟩
  · rw [runState_eq_runTrace_fst, key outs hf]
  · rw [key outs hf]
  · intro ctx hctx
    unfold errorOutputs
    constructor <;>
      exact List.mem_flatten.mpr
        ⟨_, List.mem_map.mpr ⟨ctx, hctx, rfl⟩, by simp⟩

/-- Witness for C8: two consecutive failures (a sentinel, then a thrown
error) leave the subscribed state exactly as it was. -/
theorem failures_keep_polling_witness :
    runState (runState initState [Event.willAppear "a" {}])
        (cycles [FetchOutcome.success (-1) 0, FetchOutcome.thrown]) =
      runState initState [Event.willAppear "a" {}] ∧
    Output.setTitleOut "a" "Error" ∈
      errorOutputs (runState initState [Event.willAppear "a" {}]).activeContexts := by
  have h := failures_keep_polling (runState initState [Event.willAppear "a" {}])
    [FetchOutcome.success (-1) 0, FetchOutcome.thrown]
    (by decide) (by simp [isFailure])
  exact ⟨h.1, (h.2.2 "a" (by decide)).1⟩

lemma fail_complete_state (s : State) (hz : s.inFlightUpdates ≠ 0) :
    (step s (Event.fetchComplete (FetchOutcome.success (-1) 0))).1 =
      { s with inFlightUpdates := s.inFlightUpdates - 1 } := by
  simp [step, hz]

/-- C10: a cycle resolving to the sentinel leaves the cached
`lastValue`/`lastChange` pair untouched, and a context subscribing right
after it — while other contexts remain registered — is immediately shown the
pre-failure cached Reading rendered with its own settings, not the error
state, and triggers no fetch. -/
theorem sentinel_preserves_cache (s : State) (ctx : String)
    (stg : ActiveUsersSettings) (v : Int) (c : ℚ)
    (hv : s.lastValue = some v) (hc : s.lastChange = some c)
    (hin : 1 ≤ s.inFlightUpdates) (hne : s.activeContexts ≠ [])
    (hnew : ctx ∉ s.activeContexts) (hv1 : v ≠ -1) :
    (step s (Event.fetchComplete (FetchOutcome.success (-1) 0))).1.lastValue = some v ∧
    (step s (Event.fetchComplete (FetchOutcome.success (-1) 0))).1.lastChange = some c ∧
    (step (step s (Event.fetchComplete (FetchOutcome.success (-1) 0))).1
        (Event.willAppear ctx stg)).2 =
      [Output.setTitleOut ctx "Loading...",
       Output.setImageTile ctx (activeUsersTile stg v c),
       Output.setTitleOut ctx ""] ∧
    Output.fetchStarted ∉
      (step (step s (Event.fetchComplete (FetchOutcome.success (-1) 0))).1
        (Event.willAppear ctx stg)).2 := by
  have hz : s.inFlightUpdates ≠ 0 := Nat.pos_iff_ne_zero.mp hin
  rw [fail_complete_state s hz]
  have h := willAppear_pushes_cache { s with inFlightUpdates := s.inFlightUpdates - 1 }
    ctx stg v c hne hnew hv hc hv1
  exact ⟨hv, hc, h.2.2.2.2.1, h.2.2.2.2.2⟩

/-- Witness for C10: after a successful cycle caching (7, +15%) and then a
failed cycle, subscriber "b" still receives the (7, +15%) tile. -/
theorem sentinel_preserves_cache_witness :
    (step (step (runState initState
        [Event.willAppear "a" {}, Event.fetchComplete (FetchOutcome.success 7 15),
         Event.tick])
        (Event.fetchComplete (FetchOutcome.success (-1) 0))).1
      (Event.willAppear "b" {})).2 =
      [Output.setTitleOut "b" "Loading...",
       Output.setImageTile "b" (activeUsersTile {} 7 15),
       Output.setTitleOut "b" ""] := by
  exact (sentinel_preserves_cache
    (runState initState
      [Event.willAppear "a" {}, Event.fetchComplete (FetchOutcome.success 7 15),
       Event.tick])
    "b" {} 7 15 (by decide) (by decide) (by decide) (by decide) (by decide)
    (by decide)).2.2.1

end AU

/-! ## Theorems about the `MonthlyUniqueUsersAction` key-press toggle -/

namespace MU

/-- The period selected after a key press: the negation of the stored
`showingPrevious || false`. -/
def toggledFlag (s : State) (ctx : String) : Bool :=
  !(((mapGet s.settingsCache ctx).getD {}).showingPrevious.getD false)

/-- The object `{ ...currentSettings, showingPrevious }`: the stored settings with only
the `showingPrevious` flag flipped. -/
def toggledSettings (s : State) (ctx : String) : MUSettings :=
  { (mapGet s.settingsCache ctx).getD {} with
      showingPrevious := some (toggledFlag s ctx) }

/-- C9: when cached dual-window data for the period selected by the toggle
exists, `onKeyDown` performs zero fetch calls, replaces the context's
settings by the same settings with only `showingPrevious` flipped, leaves
every cached value untouched, and re-renders from the cached pair of the
selected period. -/
theorem keydown_toggle_rerenders_cached (s : State) (ctx : String)
    (fp fc : Int × ℚ)
    (hprev : toggledFlag s ctx = true →
      ∃ v c, s.lastPreviousValue = some v ∧ s.lastPreviousChange = some c)
    (hcurr : toggledFlag s ctx = false →
      ∃ v c, s.lastValue = some v ∧ s.lastChange = some c) :
    (onKeyDown s ctx fp fc).2.2.1 = 0 ∧
    (onKeyDown s ctx fp fc).2.1 = toggledSettings s ctx ∧
    (onKeyDown s ctx fp fc).1 =
      { s with settingsCache := mapSet s.settingsCache ctx (toggledSettings s ctx) } ∧
    (toggledFlag s ctx = true →
      ∃ v c, s.lastPreviousValue = some v ∧ s.lastPreviousChange = some c ∧
        (onKeyDown s ctx fp fc).2.2.2 = muRender (toggledSettings s ctx) true v c) ∧
    (toggledFlag s ctx = false →
      ∃ v c, s.lastValue = some v ∧ s.lastChange = some c ∧
        (onKeyDown s ctx fp fc).2.2.2 = muRender (toggledSettings s ctx) false v c) := by
  have hkd : onKeyDown s ctx fp fc =
      ({ s with settingsCache := mapSet s.settingsCache ctx (toggledSettings s ctx) },
       toggledSettings s ctx,
       updateMetric
         { s with settingsCache := mapSet s.settingsCache ctx (toggledSettings s ctx) }
         (toggledSettings s ctx) fp fc) := rfl
  cases hft : toggledFlag s ctx with
  | true =>
    obtain ⟨v, c, hv, hc⟩ := hprev hft
    have hum : updateMetric
        { s with settingsCache := mapSet s.settingsCache ctx (toggledSettings s ctx) }
        (toggledSettings s ctx) fp fc = (0, muRender (toggledSettings s ctx) true v c) := by
      simp [updateMetric, toggledSettings, hft, hv, hc]
    rw [hkd, hum]
    exact ⟨rfl, rfl, rfl,
      fun _ => ⟨v, c, hv, hc, rfl⟩,
      fun hfalse => Bool.noConfusion hfalse⟩
  | false =>
    obtain ⟨v, c, hv, hc⟩ := hcurr hft
    have hum : updateMetric
        { s with settingsCache := mapSet s.settingsCache ctx (toggledSettings s ctx) }
        (toggledSettings s ctx) fp fc = (0, muRender (toggledSettings s ctx) false v c) := by
      simp [updateMetric, toggledSettings, hft, hv, hc]
    rw [hkd, hum]
    exact ⟨rfl, rfl, rfl,
      fun htrue => Bool.noConfusion htrue,
      fun _ => ⟨v, c, hv, hc, rfl⟩⟩

/-- Witness for C9: with both periods cached, a key press on context "a"
(currently showing the current period) switches to the previous period with
zero fetch calls. -/
theorem keydown_toggle_rerenders_cached_witness :
    (onKeyDown
      { settingsCache := [("a", {})], lastValue := some 10, lastChange := some 1,
        lastPreviousValue := some 20, lastPreviousChange := some 2 }
      "a" (0, 0) (0, 0)).2.2.1 = 0 := by
  exact (keydown_toggle_rerenders_cached
    { settingsCache := [("a", {})], lastValue := some 10, lastChange := some 1,
      lastPreviousValue := some 20, lastPreviousChange := some 2 }
    "a" (0, 0) (0, 0)
    (fun _ => ⟨20, 2, rfl, rfl⟩)
    (fun h => absurd h (by decide))).1

end MU

end RealtimeV2
